import Mathlib

/-!
# RustSyncCV-Client: verification of the synchronization runtime

Shallow embedding of the clipboard-sync client runtime
(clipboard monitor / applier, WebSocket receive path, supervisor,
LAN discovery connector and TCP peer framing) together with proofs of
the specified properties.

Source files embedded:
* `GUI/src/runtime/clipboard.rs` — monitor and applier
* `GUI/src/runtime/mod.rs` — supervisor and server connection loop
* `GUI/src/runtime/config.rs` — configuration load
* `src-tauri/src/runtime/messages.rs` — wire message shapes
* `src-tauri/src/runtime/lan/mod.rs` — peer connector
* `src-tauri/src/runtime/lan/protocol.rs`, `lan/peer.rs` — TCP framing
-/

set_option maxRecDepth 8000

namespace RustSyncCV

/-! ## Wire message shapes (`src-tauri/src/runtime/messages.rs`) -/

/-- `MSG_TYPE_CLIPBOARD_UPDATE` constant (messages.rs line 4). -/
def MSG_TYPE_CLIPBOARD_UPDATE : String := "clipboard_update"

/-- `CONTENT_TYPE_TEXT` constant (messages.rs line 7). -/
def CONTENT_TYPE_TEXT : String := "text/plain"

/-- `CONTENT_TYPE_IMAGE_PNG` constant (messages.rs line 8). -/
def CONTENT_TYPE_IMAGE_PNG : String := "image/png"

/-- `ClipboardUpdatePayload` (messages.rs lines 35-40). -/
structure ClipboardUpdatePayload where
  content_type : String
  data : String
  sender_device_id : String
deriving DecidableEq, Repr

/-- `ClipboardUpdate` (messages.rs lines 28-33); `msg_type` is serialised
under the JSON key `type`. -/
structure ClipboardUpdate where
  msg_type : String
  payload : ClipboardUpdatePayload
deriving DecidableEq, Repr

/-- `ClipboardBroadcastPayload` (messages.rs lines 64-68).  Note: it carries
no `sender_device_id` field. -/
structure ClipboardBroadcastPayload where
  content_type : String
  data : String
deriving DecidableEq, Repr

/-! ## Runtime events (subset of `RuntimeEvent` in `GUI/src/runtime/mod.rs`) -/

/-- `log::Level` values used by the runtime. -/
inductive LogLevel
  | error
  | warn
  | info
  | debug
deriving DecidableEq, Repr

/-- One observable emission of the clipboard monitor: a `RuntimeEvent::Log`,
a `RuntimeEvent::ClipboardSent`, or a `tx.send(update)` on the broadcast
fan-out channel. -/
inductive MonEmit
  | log (lvl : LogLevel) (msg : String)
  | clipboardSent (content_type : String)
  | update (u : ClipboardUpdate)
deriving DecidableEq, Repr

/-- Whether an emission is a `ClipboardUpdate` broadcast (a `tx.send`). -/
def MonEmit.isUpdate : MonEmit → Bool
  | .update _ => true
  | _ => false

/-! ## Clipboard monitor (`GUI/src/runtime/clipboard.rs`) -/

/-- `MONITOR_INTERVAL` (clipboard.rs line 29), in milliseconds. -/
def MONITOR_INTERVAL_MS : Nat := 500

/-- `MIN_BROADCAST_INTERVAL` (clipboard.rs line 30), in milliseconds. -/
def MIN_BROADCAST_INTERVAL_MS : Nat := 400

/-- The mutable state of `start_clipboard_monitor` (clipboard.rs lines
40-42): `last_text`, `last_image_hash`, `last_send_time` (an `Instant`,
modelled as milliseconds). -/
structure MonitorState where
  last_text : String
  last_image_hash : Option Nat
  last_send_time : Nat
deriving DecidableEq, Repr

/-- `ClipboardContent` (clipboard.rs lines 291-294). -/
inductive ClipboardContent
  | text (t : String)
  | image (bytes : List Nat) (width : Nat) (height : Nat)
deriving DecidableEq, Repr

/-- Outcome of `task::spawn_blocking(|| read_clipboard_content()).await`
(clipboard.rs line 59): a `JoinError`, a clipboard read error, or content. -/
inductive ClipboardReadOutcome
  | joinError
  | readError (e : String)
  | content (c : ClipboardContent)
deriving DecidableEq, Repr

/-- External functions the monitor calls, passed as parameters of the
embedding: `encode_png` (clipboard.rs lines 279-289, backed by the `image`
crate), the `DefaultHasher` 64-bit hash of the PNG bytes (lines 105-107),
and base64 STANDARD encoding (line 126); plus the session `device_id` and
the configured `max_image_kb`. -/
structure MonitorEnv where
  encodePng : List Nat → Nat → Nat → Except String (List Nat)
  hashPng : List Nat → Nat
  base64encode : List Nat → String
  device_id : String
  max_image_kb : Nat

/-- One poll cycle of `start_clipboard_monitor` (clipboard.rs lines 44-156),
between two sleeps: the suppression-flag check (lines 49-57), the clipboard
read, the rate-limit gate (line 63), and the text/image dispatch.  Returns
the new monitor state and the list of emissions, in program order. -/
def monitorCycle (env : MonitorEnv) (suppressed : Bool)
    (read : ClipboardReadOutcome) (now : Nat) (st : MonitorState) :
    MonitorState × List MonEmit :=
  if suppressed then
    (st, [])
  else
    match read with
    | .joinError => (st, [])
    | .readError e => (st, [.log .error ("读取剪贴板失败: " ++ e)])
    | .content c =>
      if MIN_BROADCAST_INTERVAL_MS ≤ now - st.last_send_time then
        match c with
        | .text t =>
          if t ≠ "" ∧ t ≠ st.last_text then
            ({ st with last_text := t, last_send_time := now },
             [.log .info ("检测到文本剪贴板更新 len=" ++ toString t.length),
              .clipboardSent CONTENT_TYPE_TEXT,
              .update ⟨MSG_TYPE_CLIPBOARD_UPDATE,
                ⟨CONTENT_TYPE_TEXT, t, env.device_id⟩⟩])
          else
            (st, [])
        | .image bytes w h =>
          match env.encodePng bytes w h with
          | .error _ => (st, [])
          | .ok encoded =>
            if env.max_image_kb * 1024 < encoded.length then
              (st, [.log .warn ("跳过过大的图片 size=" ++ toString encoded.length
                    ++ " limit=" ++ toString env.max_image_kb ++ "KB")])
            else
              if some (env.hashPng encoded) ≠ st.last_image_hash then
                ({ st with last_image_hash := some (env.hashPng encoded),
                           last_send_time := now },
                 [.log .info ("检测到图片剪贴板更新 size="
                      ++ toString encoded.length ++ " bytes"),
                  .clipboardSent CONTENT_TYPE_IMAGE_PNG,
                  .update ⟨MSG_TYPE_CLIPBOARD_UPDATE,
                    ⟨CONTENT_TYPE_IMAGE_PNG, env.base64encode encoded,
                     env.device_id⟩⟩])
              else
                (st, [])
      else
        (st, [])

/-- The inputs a poll cycle observes: the suppression flag, the clipboard
read outcome, and the current `Instant::now()` in milliseconds. -/
structure CycleInput where
  suppressed : Bool
  read : ClipboardReadOutcome
  now : Nat
deriving Repr

/-- The `ClipboardUpdate` broadcasts of an emission list, stamped with the
cycle's `now`. -/
def updateStamps (now : Nat) (ems : List MonEmit) :
    List (Nat × ClipboardUpdate) :=
  ems.filterMap fun e =>
    match e with
    | .update u => some (now, u)
    | _ => none

/-- A run of the monitor loop over a sequence of poll-cycle inputs,
collecting all time-stamped `ClipboardUpdate` broadcasts. -/
def monitorRun (env : MonitorEnv) (st : MonitorState) :
    List CycleInput → MonitorState × List (Nat × ClipboardUpdate)
  | [] => (st, [])
  | i :: rest =>
    let step := monitorCycle env i.suppressed i.read i.now st
    let later := monitorRun env step.1 rest
    (later.1, updateStamps i.now step.2 ++ later.2)

/-! ## Await primitives: select-against-cancellation versus plain sleep

Timers in the runtime are modelled by when they let the task resume and
whether cancellation was observed at that point.  `cancelAt` is the time
(milliseconds from the start of the wait) at which the cancellation token
fires, or `none` if it never fires during the wait. -/

/-- `tokio::select! { _ = cancel.cancelled() => .., _ = sleep(d) => .. }`:
if the token fires strictly before the timer, the task resumes at the
cancellation instant and observes cancellation; otherwise it resumes when
the timer elapses. -/
def selectCancelOrSleep (cancelAt : Option Nat) (d : Nat) : Nat × Bool :=
  match cancelAt with
  | none => (d, false)
  | some c => if c < d then (c, true) else (d, false)

/-- A plain `sleep(d).await` with no select: the task always resumes only
after the full duration `d`; a pending cancellation is noticed only at the
next check, after the timer has run out. -/
def plainSleep (cancelAt : Option Nat) (d : Nat) : Nat × Bool :=
  (d, match cancelAt with
      | none => false
      | some c => decide (c ≤ d))

/-- The monitor's suppressed-cycle wait (clipboard.rs lines 50-55):
`select { cancel.cancelled() | sleep(MONITOR_INTERVAL) }`. -/
def monitorSuppressedWait (cancelAt : Option Nat) : Nat × Bool :=
  selectCancelOrSleep cancelAt MONITOR_INTERVAL_MS

/-- The server transport's reconnect delay (GUI/src/runtime/mod.rs lines
331 and 476-479): `select { cancel.cancelled() | sleep(5 s) }`. -/
def reconnectWait (cancelAt : Option Nat) : Nat × Bool :=
  selectCancelOrSleep cancelAt 5000

/-- The peer connector's scan delay (src-tauri/src/runtime/lan/mod.rs lines
369-372): `select { cancel.cancelled() | sleep(CONNECTOR_SCAN_INTERVAL_SECS
= 4 s) }`. -/
def connectorScanWait (cancelAt : Option Nat) : Nat × Bool :=
  selectCancelOrSleep cancelAt 4000

/-- The peer session's heartbeat tick (src-tauri/src/runtime/lan/peer.rs
lines 392 and 412-428): `interval(HEARTBEAT_INTERVAL_SECS = 5 s)` polled
inside a `select!` together with `cancel.cancelled()`. -/
def heartbeatTickWait (cancelAt : Option Nat) : Nat × Bool :=
  selectCancelOrSleep cancelAt 5000

/-- The LAN client's back-off delay (peer.rs lines 240-243):
`select { cancel.cancelled() | sleep(delay_secs) }`. -/
def lanReconnectWait (cancelAt : Option Nat) (delay_secs : Nat) : Nat × Bool :=
  selectCancelOrSleep cancelAt (delay_secs * 1000)

/-- The wait after an authentication failure (GUI/src/runtime/mod.rs line
381): a bare `sleep(Duration::from_secs(3)).await` with no select — the
preceding `cancel.is_cancelled()` check is at line 378, before the sleep
starts. -/
def authFailureWait (cancelAt : Option Nat) : Nat × Bool :=
  plainSleep cancelAt 3000

/-! ## Clipboard applier (`GUI/src/runtime/clipboard.rs` lines 167-259) -/

/-- A store to the shared suppression flag, or the blocking OS clipboard
write, in program order. -/
inductive ApplierStep
  | setFlag (b : Bool)
  | osWrite
deriving DecidableEq, Repr

/-- Outcome of `task::spawn_blocking(move || .. cb.set_text/set_image ..)`:
success, a clipboard error inside the closure, or a `JoinError`. -/
inductive WriteOutcome
  | ok
  | writeErr (e : String)
  | joinErr (e : String)
deriving DecidableEq, Repr

/-- The `match result` at the end of `set_text` / `set_image_from_base64`
(clipboard.rs lines 225-229 and 254-258). -/
def writeOutcomeResult : WriteOutcome → Except String Unit
  | .ok => .ok ()
  | .writeErr e => .error e
  | .joinErr e => .error ("任务 join 出错: " ++ e)

/-- `set_text` (clipboard.rs lines 214-230): store `true` to the
suppression flag, run the blocking OS write, store `false`, then inspect
the outcome.  Returns the step trace in program order and the result. -/
def set_text (text : String) (outcome : WriteOutcome) :
    List ApplierStep × Except String Unit :=
  let s1 : List ApplierStep := [.setFlag true]
  let s2 : List ApplierStep := s1 ++ [.osWrite]
  let s3 : List ApplierStep := s2 ++ [.setFlag false]
  (s3, writeOutcomeResult outcome)

/-- `set_image_from_base64` (clipboard.rs lines 232-259): base64-decode and
PNG-decode happen before the flag is touched; on either decode failure the
function returns the error with no flag store and no OS write.  The two
decoders (the `base64` and `image` crates) are passed as parameters. -/
def set_image_from_base64 (b64decode : String → Except String (List Nat))
    (pngDecode : List Nat → Except String (Nat × Nat × List Nat))
    (data : String) (outcome : WriteOutcome) :
    List ApplierStep × Except String Unit :=
  match b64decode data with
  | .error e => ([], .error ("Base64 解码失败: " ++ e))
  | .ok bytes =>
    match pngDecode bytes with
    | .error e => ([], .error ("PNG 解码失败: " ++ e))
    | .ok _ =>
      let s1 : List ApplierStep := [.setFlag true]
      let s2 : List ApplierStep := s1 ++ [.osWrite]
      let s3 : List ApplierStep := s2 ++ [.setFlag false]
      (s3, writeOutcomeResult outcome)

/-- The value of the suppression flag after executing a step trace,
starting from `flag0`. -/
def finalFlag (flag0 : Bool) : List ApplierStep → Bool
  | [] => flag0
  | .setFlag b :: rest => finalFlag b rest
  | .osWrite :: rest => finalFlag flag0 rest

/-- The flag values observed at each OS clipboard write in a step trace. -/
def flagAtWrites (flag0 : Bool) : List ApplierStep → List Bool
  | [] => []
  | .setFlag b :: rest => flagAtWrites b rest
  | .osWrite :: rest => flag0 :: flagAtWrites flag0 rest

/-! ## Supervisor (`GUI/src/runtime/mod.rs` lines 136-299) -/

/-- `StartOptions` (mod.rs lines 65-69). -/
structure StartOptions where
  config_dir : String
  insecure_override : Bool
deriving DecidableEq, Repr

/-- The active task set (mod.rs lines 143-148).  The embedding records the
options the set was spawned from, which determine the configuration the
running monitor/setter/connection tasks hold. -/
structure ActiveTasks where
  spawnedWith : StartOptions
deriving DecidableEq, Repr

/-- `RuntimeWorker` state (mod.rs lines 136-141), minus the event channel. -/
structure RuntimeWorker where
  active : Option ActiveTasks
  last_options : Option StartOptions
  paused : Bool
deriving DecidableEq, Repr

/-- `RuntimeCommand` (mod.rs lines 71-78). -/
inductive RuntimeCommand
  | start (options : StartOptions)
  | pause
  | resume
  | reload (options : StartOptions)
  | shutdown
deriving DecidableEq, Repr

/-- `RuntimeWorker::start_tasks` (mod.rs lines 206-278): if a task set is
already active it returns `Ok(())` immediately, touching nothing; otherwise
it clears `paused`, loads the configuration (`cfgLoad` stands for
`Config::load_from_dir` plus URL parsing, which can fail), spawns the task
set and records it as active. -/
def start_tasks (cfgLoad : StartOptions → Except String Unit)
    (w : RuntimeWorker) (options : StartOptions) :
    RuntimeWorker × Except String Unit :=
  if w.active.isSome then
    (w, .ok ())
  else
    match cfgLoad options with
    | .error e => ({ w with paused := false }, .error e)
    | .ok _ => ({ w with paused := false, active := some ⟨options⟩ }, .ok ())

/-- `RuntimeWorker::stop_tasks` (mod.rs lines 280-299): cancel and drain or
abort the active set; afterwards no set is active. -/
def stop_tasks (w : RuntimeWorker) (_hard : Bool) : RuntimeWorker :=
  { w with active := none }

/-- One iteration of the supervisor command loop `RuntimeWorker::run`
(mod.rs lines 160-204). -/
def runStep (cfgLoad : StartOptions → Except String Unit)
    (w : RuntimeWorker) : RuntimeCommand → RuntimeWorker
  | .start options =>
    let w1 := { w with last_options := some options }
    (start_tasks cfgLoad w1 options).1
  | .pause =>
    stop_tasks { w with paused := true } false
  | .resume =>
    if w.active.isSome then
      w
    else
      match w.last_options with
      | some options => (start_tasks cfgLoad w options).1
      | none => w
  | .reload options =>
    let w1 := stop_tasks w true
    let w2 := { w1 with last_options := some options }
    (start_tasks cfgLoad w2 options).1
  | .shutdown =>
    stop_tasks w true

/-! ## Configuration (`GUI/src/runtime/config.rs`) -/

/-- `default_max_image_kb` (config.rs lines 9-11). -/
def default_max_image_kb : Nat := 512

/-- The runtime `Config` (GUI/src/runtime/config.rs lines 21-36). -/
structure Config where
  server_url : String
  token : Option String
  username : Option String
  password : Option String
  max_image_kb : Nat
  material_effect : String
  theme_mode : String
deriving DecidableEq, Repr

/-- The serde field semantics of `#[serde(default = "default_max_image_kb")]
pub max_image_kb: u64` (config.rs lines 30-31) applied by
`Config::load_from_dir`: the persisted value if the key is present in
`config.toml`, `512` otherwise.  No clamping is applied on load. -/
def configMaxImageKb (persisted : Option Nat) : Nat :=
  persisted.getD default_max_image_kb

/-- A `Config` as produced by `Config::load_from_dir` for a file whose
`max_image_kb` key is `persistedKb` (other fields held fixed; they do not
influence the monitor's image limit). -/
def loadedConfig (persistedKb : Option Nat) : Config :=
  { server_url := "wss://example.com/ws"
    token := none
    username := none
    password := none
    max_image_kb := configMaxImageKb persistedKb
    material_effect := "mica"
    theme_mode := "system" }

/-- The value `start_tasks` hands to the clipboard monitor
(GUI/src/runtime/mod.rs line 233: `let monitor_cfg = cfg.max_image_kb;`,
passed unchanged to `start_clipboard_monitor` at line 240). -/
def startTasksMonitorKb (cfg : Config) : Nat :=
  cfg.max_image_kb

/-! ## JSON values and the server receive path
(`GUI/src/runtime/mod.rs` lines 409-426) -/

/-- A JSON value, as produced by `serde_json` parsing a text frame. -/
inductive Json
  | str (s : String)
  | num (n : Int)
  | jbool (b : Bool)
  | null
  | arr (elems : List Json)
  | obj (fields : List (String × Json))

/-- Field lookup in a JSON object (first occurrence of the key). -/
def jsonLookup : List (String × Json) → String → Option Json
  | [], _ => none
  | (k, v) :: rest, key => if k = key then some v else jsonLookup rest key

/-- serde deserialisation of `ClipboardBroadcastPayload` (messages.rs lines
64-68): requires a JSON object with string fields `content_type` and
`data`; unknown extra fields (such as `sender_device_id`) are ignored, as
serde does by default. -/
def decodeClipboardBroadcastPayload (j : Json) :
    Option ClipboardBroadcastPayload :=
  match j with
  | .obj fs =>
    match jsonLookup fs "content_type", jsonLookup fs "data" with
    | some (.str ct), some (.str d) => some ⟨ct, d⟩
    | _, _ => none
  | _ => none

/-- serde deserialisation of `ClipboardBroadcast` (messages.rs lines
57-62): an object with a string field `type` and a `payload` field that
deserialises as `ClipboardBroadcastPayload`. -/
def decodeClipboardBroadcast (j : Json) :
    Option (String × ClipboardBroadcastPayload) :=
  match j with
  | .obj fs =>
    match jsonLookup fs "type", jsonLookup fs "payload" with
    | some (.str ty), some p =>
      (decodeClipboardBroadcastPayload p).map fun pl => (ty, pl)
    | _, _ => none
  | _ => none

/-- The inbound text-frame handler of `run_connection_loop`
(GUI/src/runtime/mod.rs lines 411-425): try the wrapped
`ClipboardBroadcast` first, then the flat `ClipboardBroadcastPayload`.
Returns the payload sent to `tx_in` (the applier queue), if any, and the
`handled` flag. -/
def handleIncomingText (text : Json) :
    Option ClipboardBroadcastPayload × Bool :=
  match decodeClipboardBroadcast text with
  | some (_, payload) => (some payload, true)
  | none =>
    match decodeClipboardBroadcastPayload text with
    | some payload => (some payload, true)
    | none => (none, false)

/-! ## LAN peer connector (`src-tauri/src/runtime/lan/mod.rs` lines
357-434) -/

/-- `DiscoveredPeer` (src-tauri/src/runtime/lan/protocol.rs lines
106-112). -/
structure DiscoveredPeer where
  device_id : String
  device_name : String
  addr : String
  tcp_port : Nat
  last_seen : Nat
deriving DecidableEq, Repr

/-- The connector's per-peer decision (lan/mod.rs lines 381-385): the scan
skips a peer when `own_device_id <= peer.device_id`, so it initiates
exactly when that comparison fails, i.e. when our id is strictly greater
(Rust `String` ordering is lexicographic). -/
def shouldInitiate (own_device_id peer_device_id : String) : Bool :=
  !(decide (own_device_id ≤ peer_device_id))

/-- One 4-second scan of `run_peer_connector` (lan/mod.rs lines 379-427):
iterate over the discovered peers in order; skip a peer when
`own_device_id <= peer.device_id` or when its id is already in the
`connected` set; otherwise record the id in `connected` and spawn a client
session for it.  Returns the peers spawned this scan and the new
`connected` set. -/
def connectorScanStep (own_device_id : String) (connected : List String) :
    List DiscoveredPeer → List DiscoveredPeer × List String
  | [] => ([], connected)
  | peer :: rest =>
    if own_device_id ≤ peer.device_id then
      connectorScanStep own_device_id connected rest
    else if peer.device_id ∈ connected then
      connectorScanStep own_device_id connected rest
    else
      let later :=
        connectorScanStep own_device_id (peer.device_id :: connected) rest
      (peer :: later.1, later.2)

/-! ## TCP peer framing (`src-tauri/src/runtime/lan/protocol.rs`,
`lan/peer.rs`) -/

/-- `MAX_FRAME_SIZE` (protocol.rs line 157): 16 MiB. -/
def MAX_FRAME_SIZE : Nat := 16 * 1024 * 1024

/-- `PeerMessage` (protocol.rs lines 72-100). -/
inductive PeerMessage
  | hello (device_id device_name : String)
  | welcome (device_id device_name : String)
  | ping (ts : Nat)
  | pong (ts : Nat)
  | clipboard (content_type data : String)
deriving DecidableEq, Repr

/-- `u32::from_be_bytes` on a 4-byte buffer. -/
def u32_from_be_bytes (b0 b1 b2 b3 : Nat) : Nat :=
  ((b0 * 256 + b1) * 256 + b2) * 256 + b3

/-- `read_exact` on an async reader, modelled over the stream's pending
byte sequence: succeeds with the first `n` bytes and the remainder, or
fails with the caller's `.context(..)` message when the stream ends
early. -/
def readExact (ctx : String) (n : Nat) (input : List Nat) :
    Except String (List Nat × List Nat) :=
  if n ≤ input.length then .ok (input.take n, input.drop n)
  else .error ctx

/-- `read_peer_message_from_reader` (peer.rs lines 573-598): read the
4-byte big-endian length prefix; reject the frame before allocating or
reading any payload byte when the length exceeds `MAX_FRAME_SIZE`;
otherwise read the payload and hand it to `serde_json::from_slice`
(the `parseJson` parameter). -/
def read_peer_message_from_reader
    (parseJson : List Nat → Except String PeerMessage)
    (input : List Nat) : Except String (PeerMessage × List Nat) :=
  match readExact "reading frame length" 4 input with
  | .error e => .error e
  | .ok (len_buf, rest) =>
    let len := u32_from_be_bytes (len_buf.getD 0 0) (len_buf.getD 1 0)
        (len_buf.getD 2 0) (len_buf.getD 3 0)
    if MAX_FRAME_SIZE < len then
      .error ("frame too large: " ++ toString len ++ " bytes (max "
        ++ toString MAX_FRAME_SIZE ++ ")")
    else
      match readExact "reading frame payload" len rest with
      | .error e => .error e
      | .ok (payload, rest2) =>
        match parseJson payload with
        | .error e => .error e
        | .ok msg => .ok (msg, rest2)

/-- What the peer session does in response to one inbound read
(peer.rs lines 467-529). -/
inductive SessionAction
  | sendPong (ts : Nat)
  | updateLastPong
  | forwardClipboard (p : ClipboardBroadcastPayload)
  | warnUnexpected
deriving DecidableEq, Repr

/-- The inbound-read arm of `run_peer_session` (peer.rs lines 471-528):
a read error terminates the session with a `LAN peer read error` wrapping
the frame error; otherwise the message is dispatched. -/
def sessionHandleInbound (inbound : Except String PeerMessage) :
    Except String (List SessionAction) :=
  match inbound with
  | .error e => .error ("LAN peer read error: " ++ e)
  | .ok msg =>
    .ok (match msg with
      | .ping ts => [.sendPong ts]
      | .pong _ => [.updateLastPong]
      | .clipboard ct d => [.forwardClipboard ⟨ct, d⟩]
      | _ => [.warnUnexpected])

/-- A sample monitor environment for concrete evaluations: the PNG encoder
returns the raw bytes, the hash is the byte length, and the image limit is
1 KiB. -/
def sampleEnv : MonitorEnv :=
  { encodePng := fun bytes _ _ => .ok bytes
    hashPng := List.length
    base64encode := fun _ => "b64"
    device_id := "dev-1"
    max_image_kb := 1 }

/-! ## Monitor lemmas -/

/-- Each poll cycle either broadcasts nothing and leaves `last_send_time`
unchanged, or broadcasts exactly one update, stamps `last_send_time` with
`now`, and satisfies the 400 ms gate against the previous
`last_send_time`. -/
theorem monitorCycle_dichotomy (env : MonitorEnv) (sup : Bool)
    (read : ClipboardReadOutcome) (now : Nat) (st : MonitorState) :
    (updateStamps now (monitorCycle env sup read now st).2 = []
      ∧ (monitorCycle env sup read now st).1.last_send_time
          = st.last_send_time)
    ∨ (∃ u, updateStamps now (monitorCycle env sup read now st).2 = [(now, u)]
      ∧ (monitorCycle env sup read now st).1.last_send_time = now
      ∧ st.last_send_time + MIN_BROADCAST_INTERVAL_MS ≤ now) := by
  cases sup with
  | true => left; simp [monitorCycle, updateStamps]
  | false =>
    cases read with
    | joinError => left; simp [monitorCycle, updateStamps]
    | readError e => left; simp [monitorCycle, updateStamps]
    | content c =>
      by_cases hgate : MIN_BROADCAST_INTERVAL_MS ≤ now - st.last_send_time
      · have hle : st.last_send_time + MIN_BROADCAST_INTERVAL_MS ≤ now := by
          have h400 : (0:Nat) < MIN_BROADCAST_INTERVAL_MS := by decide
          omega
        cases c with
        | text t =>
          by_cases ht : t ≠ "" ∧ t ≠ st.last_text
          · right
            refine ⟨⟨MSG_TYPE_CLIPBOARD_UPDATE,
              ⟨CONTENT_TYPE_TEXT, t, env.device_id⟩⟩, ?_, ?_, hle⟩
            · simp [monitorCycle, hgate, ht, updateStamps]
            · simp [monitorCycle, hgate, ht]
          · left; simp [monitorCycle, hgate, ht, updateStamps]
        | image bytes w h =>
          cases henc : env.encodePng bytes w h with
          | error e => left; simp [monitorCycle, hgate, henc, updateStamps]
          | ok encoded =>
            by_cases hsize : env.max_image_kb * 1024 < encoded.length
            · left; simp [monitorCycle, hgate, henc, hsize, updateStamps]
            · by_cases hh : some (env.hashPng encoded) ≠ st.last_image_hash
              · right
                refine ⟨⟨MSG_TYPE_CLIPBOARD_UPDATE,
                  ⟨CONTENT_TYPE_IMAGE_PNG, env.base64encode encoded,
                   env.device_id⟩⟩, ?_, ?_, hle⟩
                · simp [monitorCycle, hgate, henc, hsize, hh, updateStamps]
                · simp [monitorCycle, hgate, henc, hsize, hh]
              · left; simp [monitorCycle, hgate, henc, hsize, hh, updateStamps]
      · left; simp [monitorCycle, hgate, updateStamps]

/-- Along any run of the monitor, the time stamps of successive broadcasts
are at least 400 ms apart, every broadcast is at least 400 ms after the
initial `last_send_time`, and `last_send_time` is nondecreasing and bounds
every broadcast time. -/
theorem monitorRun_separation (env : MonitorEnv) :
    ∀ (ins : List CycleInput) (st : MonitorState),
      List.Pairwise (fun a b => a.1 + MIN_BROADCAST_INTERVAL_MS ≤ b.1)
        (monitorRun env st ins).2
      ∧ (∀ q ∈ (monitorRun env st ins).2,
          st.last_send_time + MIN_BROADCAST_INTERVAL_MS ≤ q.1
          ∧ q.1 ≤ (monitorRun env st ins).1.last_send_time)
      ∧ st.last_send_time ≤ (monitorRun env st ins).1.last_send_time := by
  intro ins
  induction ins with
  | nil => intro st; simp [monitorRun]
  | cons i rest ih =>
    intro st
    have hrun1 : (monitorRun env st (i :: rest)).1
        = (monitorRun env (monitorCycle env i.suppressed i.read i.now st).1
            rest).1 := by
      simp [monitorRun]
    have hrun2 : (monitorRun env st (i :: rest)).2
        = updateStamps i.now (monitorCycle env i.suppressed i.read i.now st).2
          ++ (monitorRun env
               (monitorCycle env i.suppressed i.read i.now st).1 rest).2 := by
      simp [monitorRun]
    obtain ⟨ihp, ihm, ihl⟩ := ih (monitorCycle env i.suppressed i.read i.now st).1
    rcases monitorCycle_dichotomy env i.suppressed i.read i.now st with
      ⟨hnil, hlast⟩ | ⟨u, hone, hlast, hge⟩
    · rw [hlast] at ihm ihl
      rw [hrun2, hnil, List.nil_append]
      rw [hrun1]
      exact ⟨ihp, ihm, ihl⟩
    · rw [hlast] at ihm ihl
      rw [hrun2, hone, List.cons_append, List.nil_append]
      rw [hrun1]
      refine ⟨?_, ?_, by omega⟩
      · refine List.pairwise_cons.mpr ⟨?_, ihp⟩
        intro q hq
        exact (ihm q hq).1
      · intro q hq
        rcases List.mem_cons.mp hq with rfl | hq2
        · exact ⟨hge, ihl⟩
        · obtain ⟨h1, h2⟩ := ihm q hq2
          exact ⟨by omega, h2⟩

/-- C2: in a poll cycle in which the suppression flag reads true, the
monitor produces no emission and no state change — the result does not
depend on the clipboard at all, so no clipboard read is performed — and the
cycle only sleeps the 500 ms poll interval inside a select that observes a
cancellation fired during the sleep at the instant it fires. -/
theorem monitor_suppressed_skips_cycle :
    (∀ (env : MonitorEnv) (read : ClipboardReadOutcome) (now : Nat)
        (st : MonitorState), monitorCycle env true read now st = (st, []))
    ∧ (∀ c : Nat, c < MONITOR_INTERVAL_MS →
        monitorSuppressedWait (some c) = (c, true))
    ∧ monitorSuppressedWait none = (MONITOR_INTERVAL_MS, false) := by
  refine ⟨fun env read now st => rfl, fun c hc => ?_, rfl⟩
  simp [monitorSuppressedWait, selectCancelOrSleep, hc]

/-- Witness for `monitor_suppressed_skips_cycle` at a concrete
cancellation instant. -/
theorem monitor_suppressed_skips_cycle_witness :
    (100 < MONITOR_INTERVAL_MS) ∧ monitorSuppressedWait (some 100) = (100, true) :=
  ⟨by decide, monitor_suppressed_skips_cycle.2.1 100 (by decide)⟩

/-- C3: for every payload the applier processes, the suppression flag is
true at the OS clipboard write and is stored back to false after the write
returns, for every write outcome including errors and join failures, so the
flag is false when the per-payload processing completes; for images, decode
failures return before the flag or the clipboard is ever touched. -/
theorem applier_suppression_flag_discipline :
    ∀ (flag0 : Bool) (text data : String) (outcome : WriteOutcome)
      (b64 : String → Except String (List Nat))
      (png : List Nat → Except String (Nat × Nat × List Nat)),
      (finalFlag flag0 (set_text text outcome).1 = false
        ∧ ∀ b ∈ flagAtWrites flag0 (set_text text outcome).1, b = true)
      ∧ (finalFlag false (set_image_from_base64 b64 png data outcome).1 = false
        ∧ ∀ b ∈ flagAtWrites flag0
            (set_image_from_base64 b64 png data outcome).1, b = true) := by
  intro flag0 text data outcome b64 png
  refine ⟨⟨rfl, ?_⟩, ?_, ?_⟩
  · simp [set_text, flagAtWrites]
  · cases hb : b64 data with
    | error e => simp [set_image_from_base64, hb, finalFlag]
    | ok bytes =>
      cases hp : png bytes with
      | error e => simp [set_image_from_base64, hb, hp, finalFlag]
      | ok dims => simp [set_image_from_base64, hb, hp, finalFlag]
  · cases hb : b64 data with
    | error e => simp [set_image_from_base64, hb, flagAtWrites]
    | ok bytes =>
      cases hp : png bytes with
      | error e => simp [set_image_from_base64, hb, hp, flagAtWrites]
      | ok dims => simp [set_image_from_base64, hb, hp, flagAtWrites]

/-- A list of time-stamped broadcasts whose stamps are pairwise at least
400 ms apart has at most one element in any 400 ms half-open window. -/
theorem sep_window_at_most_one (l : List (Nat × ClipboardUpdate)) (w : Nat)
    (h : List.Pairwise (fun a b => a.1 + MIN_BROADCAST_INTERVAL_MS ≤ b.1) l) :
    (l.filter fun q =>
      decide (w ≤ q.1 ∧ q.1 < w + MIN_BROADCAST_INTERVAL_MS)).length ≤ 1 := by
  have hf : List.Pairwise (fun a b => a.1 + MIN_BROADCAST_INTERVAL_MS ≤ b.1)
      (l.filter fun q =>
        decide (w ≤ q.1 ∧ q.1 < w + MIN_BROADCAST_INTERVAL_MS)) :=
    h.sublist (List.filter_sublist l)
  match hl : l.filter fun q =>
      decide (w ≤ q.1 ∧ q.1 < w + MIN_BROADCAST_INTERVAL_MS) with
  | [] => rw [hl]; simp
  | [x] => rw [hl]; simp
  | x :: y :: rest =>
    exfalso
    rw [hl] at hf
    have hxy : x.1 + MIN_BROADCAST_INTERVAL_MS ≤ y.1 :=
      (List.pairwise_cons.mp hf).1 y (List.mem_cons_self y rest)
    have hxmem : x ∈ l.filter fun q =>
        decide (w ≤ q.1 ∧ q.1 < w + MIN_BROADCAST_INTERVAL_MS) := by
      rw [hl]; exact List.mem_cons_self x (y :: rest)
    have hymem : y ∈ l.filter fun q =>
        decide (w ≤ q.1 ∧ q.1 < w + MIN_BROADCAST_INTERVAL_MS) := by
      rw [hl]; exact List.mem_cons_of_mem x (List.mem_cons_self y rest)
    have hx : w ≤ x.1 ∧ x.1 < w + MIN_BROADCAST_INTERVAL_MS :=
      of_decide_eq_true (List.mem_filter.mp hxmem).2
    have hy : w ≤ y.1 ∧ y.1 < w + MIN_BROADCAST_INTERVAL_MS :=
      of_decide_eq_true (List.mem_filter.mp hymem).2
    have hM : MIN_BROADCAST_INTERVAL_MS = 400 := rfl
    omega

/-- C4: over any run of the monitor loop, at most one `ClipboardUpdate`
broadcast (text and image counted together) falls in any 400 ms window;
and when the rate-limit gate suppresses an unsuppressed poll that did read
content, the cycle changes nothing — `last_text`, the last image hash, and
`last_send_time` all keep their values and nothing is emitted, so the next
poll re-evaluates the same content. -/
theorem monitor_rate_limit (env : MonitorEnv) (st : MonitorState)
    (ins : List CycleInput) (w : Nat) :
    ((monitorRun env st ins).2.filter fun q =>
        decide (w ≤ q.1 ∧ q.1 < w + MIN_BROADCAST_INTERVAL_MS)).length ≤ 1
    ∧ (∀ (c : ClipboardContent) (now : Nat) (st2 : MonitorState),
        now - st2.last_send_time < MIN_BROADCAST_INTERVAL_MS →
        monitorCycle env false (.content c) now st2 = (st2, [])) := by
  constructor
  · exact sep_window_at_most_one _ w (monitorRun_separation env ins st).1
  · intro c now st2 hlt
    have hgate : ¬ MIN_BROADCAST_INTERVAL_MS ≤ now - st2.last_send_time := by
      omega
    simp [monitorCycle, hgate]

/-- Witness for `monitor_rate_limit` at concrete inputs: a rate-limited
poll 100 ms after the last broadcast leaves the state untouched and emits
nothing. -/
theorem monitor_rate_limit_witness :
    ((100 : Nat) - (MonitorState.mk "" none 0).last_send_time
        < MIN_BROADCAST_INTERVAL_MS)
    ∧ monitorCycle sampleEnv false (.content (.text "x")) 100 ⟨"", none, 0⟩
        = (⟨"", none, 0⟩, []) :=
  ⟨by decide,
   (monitor_rate_limit sampleEnv ⟨"", none, 0⟩ [] 0).2 (.text "x") 100
     ⟨"", none, 0⟩ (by decide)⟩

/-- Counterexample to C5: a non-suppressed poll 100 ms after the last
broadcast observes an image whose re-encoded PNG (1025 bytes, under
`sampleEnv` the encoder is the identity) exceeds `max_image_kb * 1024 =
1024`, yet the monitor emits no Warn log at all — the 400 ms rate-limit
gate discards the cycle first — contradicting the claim that every
oversized observed image produces a Warn log (and likewise a
below-threshold changed image would produce zero, not one, emissions
here). -/
theorem image_policy_rate_limited_counterexample :
    monitorCycle sampleEnv false
        (.content (.image (List.replicate 1025 0) 16 16)) 100 ⟨"", none, 0⟩
      = (⟨"", none, 0⟩, [])
    ∧ sampleEnv.max_image_kb * 1024 < (List.replicate 1025 (0:Nat)).length
    ∧ sampleEnv.encodePng (List.replicate 1025 0) 16 16
      = .ok (List.replicate 1025 0) := by
  refine ⟨?_, by simp [sampleEnv], rfl⟩
  have hgate : ¬ MIN_BROADCAST_INTERVAL_MS ≤ (100:Nat) - 0 := by decide
  simp [monitorCycle, hgate]

/-- C5 amended: in a poll cycle that passes the 400 ms rate-limit gate, an
image whose encoded PNG exceeds `max_image_kb * 1024` bytes produces
exactly one Warn log, no broadcast, and no state change (in particular the
last image hash is untouched); an image at or below the threshold whose PNG
hash differs from the last broadcast hash produces exactly one
`ClipboardUpdate` broadcast and records the new hash and send time. -/
theorem image_size_policy_amended (env : MonitorEnv) (bytes : List Nat)
    (w h now : Nat) (st : MonitorState) (encoded : List Nat)
    (hgate : MIN_BROADCAST_INTERVAL_MS ≤ now - st.last_send_time)
    (henc : env.encodePng bytes w h = .ok encoded) :
    (env.max_image_kb * 1024 < encoded.length →
      monitorCycle env false (.content (.image bytes w h)) now st
        = (st, [.log .warn ("跳过过大的图片 size=" ++ toString encoded.length
            ++ " limit=" ++ toString env.max_image_kb ++ "KB")]))
    ∧ (encoded.length ≤ env.max_image_kb * 1024 →
       some (env.hashPng encoded) ≠ st.last_image_hash →
       ((monitorCycle env false (.content (.image bytes w h)) now st).2.filter
          MonEmit.isUpdate).length = 1
       ∧ (monitorCycle env false (.content (.image bytes w h)) now st).1
          = { st with last_image_hash := some (env.hashPng encoded),
                      last_send_time := now }) := by
  constructor
  · intro hsize
    simp [monitorCycle, hgate, henc, hsize]
  · intro hsize hh
    have hsize2 : ¬ env.max_image_kb * 1024 < encoded.length := by omega
    constructor
    · simp [monitorCycle, hgate, henc, hsize2, hh, MonEmit.isUpdate]
    · simp [monitorCycle, hgate, henc, hsize2, hh]

/-- Witness for `image_size_policy_amended`: a poll at 400 ms with the
1025-byte identity-encoded image under `sampleEnv` (limit 1024 bytes) takes
the oversize branch and emits exactly the Warn log. -/
theorem image_size_policy_amended_witness :
    (MIN_BROADCAST_INTERVAL_MS ≤ 400 -
        (MonitorState.mk "" none 0).last_send_time)
    ∧ sampleEnv.max_image_kb * 1024 < (List.replicate 1025 (0:Nat)).length
    ∧ monitorCycle sampleEnv false
        (.content (.image (List.replicate 1025 0) 16 16)) 400 ⟨"", none, 0⟩
      = (⟨"", none, 0⟩, [.log .warn ("跳过过大的图片 size="
          ++ toString (List.replicate 1025 (0:Nat)).length
          ++ " limit=" ++ toString sampleEnv.max_image_kb ++ "KB")]) :=
  ⟨by decide, by simp [sampleEnv],
   (image_size_policy_amended sampleEnv (List.replicate 1025 0) 16 16 400
      ⟨"", none, 0⟩ (List.replicate 1025 0) (by decide) rfl).1
     (by simp [sampleEnv])⟩

/-! ## Server receive path (C1) -/

/-- Counterexample to C1: a session whose local DeviceId is
`11111111-1111-1111-1111-111111111111` receives a wrapped clipboard
broadcast whose `sender_device_id` equals that very id, yet
`run_connection_loop` forwards the payload to the applier queue: the
handler parses only `content_type` and `data` (the sender field is not even
representable in `ClipboardBroadcastPayload`) and performs no DeviceId
comparison. -/
theorem own_broadcast_forwarded_counterexample :
    (handleIncomingText (.obj [("type", .str "clipboard_update"),
      ("payload", .obj [("content_type", .str "text/plain"),
        ("data", .str "hello"),
        ("sender_device_id",
         .str "11111111-1111-1111-1111-111111111111")])])).1
      = some ⟨"text/plain", "hello"⟩ := rfl

/-- C1 amended: every inbound text frame that parses as a wrapped
`ClipboardBroadcast` — and every one that instead parses as a flat
`ClipboardBroadcastPayload` — is forwarded to the applier queue, regardless
of any `sender_device_id` it may carry; the client performs no own-DeviceId
filtering (self-echo suppression in server mode relies on the relay and on
the suppression flag). -/
theorem inbound_broadcast_forwarded_regardless_of_sender (j : Json)
    (p : ClipboardBroadcastPayload) :
    (∀ ty : String, decodeClipboardBroadcast j = some (ty, p) →
      handleIncomingText j = (some p, true))
    ∧ (decodeClipboardBroadcast j = none →
       decodeClipboardBroadcastPayload j = some p →
       handleIncomingText j = (some p, true)) := by
  constructor
  · intro ty h
    simp [handleIncomingText, h]
  · intro h1 h2
    simp [handleIncomingText, h1, h2]

/-- Witness for `inbound_broadcast_forwarded_regardless_of_sender` on a
concrete wrapped frame. -/
theorem inbound_broadcast_forwarded_regardless_of_sender_witness :
    decodeClipboardBroadcast (.obj [("type", .str "clipboard_update"),
        ("payload", .obj [("content_type", .str "text/plain"),
          ("data", .str "hi")])])
      = some ("clipboard_update", ⟨"text/plain", "hi"⟩)
    ∧ handleIncomingText (.obj [("type", .str "clipboard_update"),
        ("payload", .obj [("content_type", .str "text/plain"),
          ("data", .str "hi")])])
      = (some ⟨"text/plain", "hi"⟩, true) :=
  ⟨rfl,
   (inbound_broadcast_forwarded_regardless_of_sender
     (.obj [("type", .str "clipboard_update"),
       ("payload", .obj [("content_type", .str "text/plain"),
         ("data", .str "hi")])])
     ⟨"text/plain", "hi"⟩).1 "clipboard_update" rfl⟩

/-! ## Cancellation and timers (C6) -/

/-- Counterexample to C6: with cancellation already fired (at 0 ms) when
the auth-failure wait begins, the task still resumes only after the full
3000 ms — the bare `sleep(3 s)` at GUI/src/runtime/mod.rs line 381 is not a
select against the cancellation token, so this retry timer does delay the
task's observation of cancellation, unlike a select-based wait, which would
resume at 0 ms. -/
theorem auth_failure_wait_counterexample :
    authFailureWait (some 0) = (3000, true)
    ∧ selectCancelOrSleep (some 0) 3000 = (0, true)
    ∧ (authFailureWait (some 0)).1 ≠ (selectCancelOrSleep (some 0) 3000).1 := by
  decide

/-- C6 amended: the server-transport reconnect delay, the connector's
4-second scan, the heartbeat tick, and the LAN client's back-off delay are
all selects between the cancellation token and the timer, so a cancellation
fired during the wait is observed at the instant it fires; the 3-second
wait after an authentication failure, however, is a plain sleep that always
runs to completion, delaying the observation of a pending cancellation by
up to 3 seconds (but never blocking beyond that bound). -/
theorem cancellation_wait_structure_amended (c : Nat) :
    (c < 5000 → reconnectWait (some c) = (c, true))
    ∧ (c < 4000 → connectorScanWait (some c) = (c, true))
    ∧ (c < 5000 → heartbeatTickWait (some c) = (c, true))
    ∧ (∀ delay_secs : Nat, c < delay_secs * 1000 →
        lanReconnectWait (some c) delay_secs = (c, true))
    ∧ (authFailureWait (some c)).1 = 3000 := by
  refine ⟨fun h => ?_, fun h => ?_, fun h => ?_, fun d h => ?_, rfl⟩
  · simp [reconnectWait, selectCancelOrSleep, h]
  · simp [connectorScanWait, selectCancelOrSleep, h]
  · simp [heartbeatTickWait, selectCancelOrSleep, h]
  · simp [lanReconnectWait, selectCancelOrSleep, h]

/-- Witness for `cancellation_wait_structure_amended` at a 10 ms
cancellation instant. -/
theorem cancellation_wait_structure_amended_witness :
    ((10:Nat) < 5000) ∧ reconnectWait (some 10) = (10, true)
    ∧ ((10:Nat) < 1 * 1000) ∧ lanReconnectWait (some 10) 1 = (10, true) :=
  ⟨by decide, (cancellation_wait_structure_amended 10).1 (by decide),
   by decide, (cancellation_wait_structure_amended 10).2.2.2.1 1 (by decide)⟩

/-! ## Configuration clamping (C7) -/

/-- Counterexample to C7: a persisted `max_image_kb = 0` is loaded as 0 and
handed to the clipboard monitor as 0 — outside the range 1..524288 — and a
persisted 600000 likewise passes through above the upper bound:
`Config::load_from_dir` and `start_tasks` apply no clamping. -/
theorem max_image_kb_unclamped_counterexample :
    startTasksMonitorKb (loadedConfig (some 0)) = 0
    ∧ ¬ (1 ≤ startTasksMonitorKb (loadedConfig (some 0)))
    ∧ startTasksMonitorKb (loadedConfig (some 600000)) = 600000
    ∧ ¬ (startTasksMonitorKb (loadedConfig (some 600000)) ≤ 524288) := by
  decide

/-- C7 amended: the `max_image_kb` handed to the clipboard monitor at Start
or Reload defaults to 512 when the key is absent from the persisted
configuration and is otherwise the persisted value unchanged — no clamping
to 1..524288 happens on this path. -/
theorem max_image_kb_default_and_passthrough :
    startTasksMonitorKb (loadedConfig none) = 512
    ∧ ∀ v : Nat, startTasksMonitorKb (loadedConfig (some v)) = v :=
  ⟨rfl, fun _ => rfl⟩

/-! ## Frame-size bound (C9) -/

/-- C9: an inbound TCP frame whose 4-byte big-endian length prefix exceeds
16 MiB makes `read_peer_message_from_reader` fail with the
`frame too large` error after consuming only the prefix — the result does
not depend on the remaining stream bytes or on the JSON parser, so no
payload buffer is allocated and no payload byte is read — and the peer
session loop terminates with that error wrapped as a `LAN peer read
error`. -/
theorem oversize_frame_rejected
    (parse parse2 : List Nat → Except String PeerMessage)
    (b0 b1 b2 b3 : Nat) (rest rest2 : List Nat)
    (hov : MAX_FRAME_SIZE < u32_from_be_bytes b0 b1 b2 b3) :
    read_peer_message_from_reader parse (b0 :: b1 :: b2 :: b3 :: rest)
      = .error ("frame too large: " ++ toString (u32_from_be_bytes b0 b1 b2 b3)
          ++ " bytes (max " ++ toString MAX_FRAME_SIZE ++ ")")
    ∧ read_peer_message_from_reader parse (b0 :: b1 :: b2 :: b3 :: rest)
      = read_peer_message_from_reader parse2 (b0 :: b1 :: b2 :: b3 :: rest2)
    ∧ sessionHandleInbound
        ((read_peer_message_from_reader parse
          (b0 :: b1 :: b2 :: b3 :: rest)).map Prod.fst)
      = .error ("LAN peer read error: "
          ++ ("frame too large: " ++ toString (u32_from_be_bytes b0 b1 b2 b3)
              ++ " bytes (max " ++ toString MAX_FRAME_SIZE ++ ")")) := by
  have hread : ∀ (p : List Nat → Except String PeerMessage) (r : List Nat),
      read_peer_message_from_reader p (b0 :: b1 :: b2 :: b3 :: r)
        = .error ("frame too large: "
            ++ toString (u32_from_be_bytes b0 b1 b2 b3)
            ++ " bytes (max " ++ toString MAX_FRAME_SIZE ++ ")") := by
    intro p r
    have h4 : (4:Nat) ≤ (b0 :: b1 :: b2 :: b3 :: r).length := by
      simp [List.length_cons]
    simp [read_peer_message_from_reader, readExact, h4, List.take, List.drop,
      List.getD, hov]
  refine ⟨hread parse rest, ?_, ?_⟩
  · rw [hread parse rest, hread parse2 rest2]
  · rw [hread parse rest]
    rfl

/-- Witness for `oversize_frame_rejected`: the all-ones prefix decodes to
4294967295 > 16777216 and is rejected without reading the (empty)
remainder. -/
theorem oversize_frame_rejected_witness :
    (MAX_FRAME_SIZE < u32_from_be_bytes 255 255 255 255)
    ∧ read_peer_message_from_reader (fun _ => .error "unused")
        [255, 255, 255, 255]
      = .error ("frame too large: "
          ++ toString (u32_from_be_bytes 255 255 255 255)
          ++ " bytes (max " ++ toString MAX_FRAME_SIZE ++ ")") :=
  ⟨by decide,
   (oversize_frame_rejected (fun _ => .error "unused")
     (fun _ => .error "unused") 255 255 255 255 [] [] (by decide)).1⟩

/-! ## Supervisor frame effect (C10) -/

/-- C10: a Start command arriving while a task set is active leaves the
running set (and thus its effective configuration) and the paused flag
unchanged — `start_tasks` returns immediately — but the remembered options
are already replaced, so a subsequent Pause followed by Resume respawns the
task set with the new options even though they were never applied to the
session during which they arrived. -/
theorem start_while_active_frame_effect
    (cfgLoad : StartOptions → Except String Unit) (w : RuntimeWorker)
    (old : ActiveTasks) (newOpts : StartOptions)
    (hactive : w.active = some old)
    (hok : cfgLoad newOpts = .ok ()) :
    (runStep cfgLoad w (.start newOpts)).active = some old
    ∧ (runStep cfgLoad w (.start newOpts)).paused = w.paused
    ∧ (runStep cfgLoad w (.start newOpts)).last_options = some newOpts
    ∧ (runStep cfgLoad
        (runStep cfgLoad (runStep cfgLoad w (.start newOpts)) .pause)
        .resume).active = some ⟨newOpts⟩ := by
  have hsome : w.active.isSome = true := by rw [hactive]; rfl
  refine ⟨?_, ?_, ?_, ?_⟩
  · simp [runStep, start_tasks, hsome, hactive]
  · simp [runStep, start_tasks, hsome]
  · simp [runStep, start_tasks, hsome]
  · simp [runStep, start_tasks, stop_tasks, hsome, hok]

/-- Witness for `start_while_active_frame_effect` at a concrete worker
state and options. -/
theorem start_while_active_frame_effect_witness :
    ((RuntimeWorker.mk (some ⟨⟨"old", false⟩⟩) (some ⟨"old", false⟩)
        false).active = some ⟨⟨"old", false⟩⟩)
    ∧ (runStep (fun _ => .ok ())
        (runStep (fun _ => .ok ())
          (runStep (fun _ => .ok ())
            ⟨some ⟨⟨"old", false⟩⟩, some ⟨"old", false⟩, false⟩
            (.start ⟨"new", true⟩))
          .pause)
        .resume).active = some ⟨⟨"new", true⟩⟩ :=
  ⟨rfl,
   (start_while_active_frame_effect (fun _ => .ok ())
     ⟨some ⟨⟨"old", false⟩⟩, some ⟨"old", false⟩, false⟩
     ⟨⟨"old", false⟩⟩ ⟨"new", true⟩ rfl rfl).2.2.2⟩

/-! ## Connector pairing rule (C8) -/

/-- Membership in the peers spawned by one connector scan: with distinct
device ids in the table, a peer is spawned exactly when it is in the table,
our id is strictly above its id, and it is not already in the `connected`
set. -/
theorem connectorScanStep_mem (own : String) :
    ∀ (ps : List DiscoveredPeer) (connected : List String)
      (p : DiscoveredPeer),
      (ps.map DiscoveredPeer.device_id).Nodup →
      (p ∈ (connectorScanStep own connected ps).1 ↔
        p ∈ ps ∧ ¬ own ≤ p.device_id ∧ p.device_id ∉ connected) := by
  intro ps
  induction ps with
  | nil => intro connected p _; simp [connectorScanStep]
  | cons q rest ih =>
    intro connected p hnd
    rw [List.map_cons, List.nodup_cons] at hnd
    obtain ⟨hqid, hnd2⟩ := hnd
    by_cases h1 : own ≤ q.device_id
    · have hstep : connectorScanStep own connected (q :: rest)
          = connectorScanStep own connected rest := by
        simp [connectorScanStep, h1]
      rw [hstep, ih connected p hnd2]
      constructor
      · rintro ⟨hp, h2, h3⟩
        exact ⟨List.mem_cons_of_mem q hp, h2, h3⟩
      · rintro ⟨hp, h2, h3⟩
        rcases List.mem_cons.mp hp with hpq | hp2
        · exact absurd h1 (hpq ▸ h2)
        · exact ⟨hp2, h2, h3⟩
    · by_cases h2 : q.device_id ∈ connected
      · have hstep : connectorScanStep own connected (q :: rest)
            = connectorScanStep own connected rest := by
          simp [connectorScanStep, h1, h2]
        rw [hstep, ih connected p hnd2]
        constructor
        · rintro ⟨hp, h3, h4⟩
          exact ⟨List.mem_cons_of_mem q hp, h3, h4⟩
        · rintro ⟨hp, h3, h4⟩
          rcases List.mem_cons.mp hp with hpq | hp2
          · exact absurd (hpq ▸ h2) h4
          · exact ⟨hp2, h3, h4⟩
      · have hstep : (connectorScanStep own connected (q :: rest)).1
            = q :: (connectorScanStep own (q.device_id :: connected) rest).1 := by
          simp [connectorScanStep, h1, h2]
        rw [hstep, List.mem_cons, ih (q.device_id :: connected) p hnd2]
        constructor
        · rintro (hpq | ⟨hp, h3, h4⟩)
          · subst hpq
            exact ⟨List.mem_cons_self p rest, h1, h2⟩
          · exact ⟨List.mem_cons_of_mem q hp, h3,
              fun hc => h4 (List.mem_cons_of_mem q.device_id hc)⟩
        · rintro ⟨hp, h3, h4⟩
          rcases List.mem_cons.mp hp with hpq | hp2
          · exact Or.inl hpq
          · refine Or.inr ⟨hp2, h3, ?_⟩
            intro hc
            rcases List.mem_cons.mp hc with heq | hc2
            · exact hqid
                (heq ▸ List.mem_map_of_mem DiscoveredPeer.device_id hp2)
            · exact h4 hc2

/-- C8: for distinct device ids the connector rule is antisymmetric —
exactly one of the two directions has `own > peer` under the lexicographic
string order, so exactly one side of each pair initiates — and one scan of
`run_peer_connector` spawns a client session for a discovered peer exactly
when our device id is strictly greater than the peer's and the peer has not
already been attempted. -/
theorem connector_rule_antisymmetric :
    (∀ a b : String, a ≠ b →
      (shouldInitiate a b = true ↔ ¬ shouldInitiate b a = true))
    ∧ (∀ (own : String) (connected : List String) (ps : List DiscoveredPeer)
        (p : DiscoveredPeer), (ps.map DiscoveredPeer.device_id).Nodup →
        (p ∈ (connectorScanStep own connected ps).1 ↔
          p ∈ ps ∧ shouldInitiate own p.device_id = true
            ∧ p.device_id ∉ connected)) := by
  constructor
  · intro a b hab
    have h1 : (shouldInitiate a b = true) ↔ b < a := by
      simp [shouldInitiate, not_le]
    have h2 : (shouldInitiate b a = true) ↔ a < b := by
      simp [shouldInitiate, not_le]
    rw [h1, h2, not_lt]
    exact ⟨le_of_lt, fun h => h.lt_of_ne (Ne.symm hab)⟩
  · intro own connected ps p hnd
    have hs : (shouldInitiate own p.device_id = true) ↔ ¬ own ≤ p.device_id := by
      simp [shouldInitiate]
    rw [connectorScanStep_mem own ps connected p hnd, hs]

/-- Witness for `connector_rule_antisymmetric` on the concrete pair
("BBB", "AAA") and a one-entry peer table. -/
theorem connector_rule_antisymmetric_witness :
    (("BBB" : String) ≠ "AAA")
    ∧ (shouldInitiate "BBB" "AAA" = true ↔ ¬ shouldInitiate "AAA" "BBB" = true)
    ∧ (([(⟨"AAA", "p1", "192.168.0.2", 52742, 0⟩ : DiscoveredPeer)].map
         DiscoveredPeer.device_id).Nodup)
    ∧ ((⟨"AAA", "p1", "192.168.0.2", 52742, 0⟩ : DiscoveredPeer)
          ∈ (connectorScanStep "BBB" []
              [⟨"AAA", "p1", "192.168.0.2", 52742, 0⟩]).1 ↔
        (⟨"AAA", "p1", "192.168.0.2", 52742, 0⟩ : DiscoveredPeer)
            ∈ [(⟨"AAA", "p1", "192.168.0.2", 52742, 0⟩ : DiscoveredPeer)]
          ∧ shouldInitiate "BBB" "AAA" = true
          ∧ "AAA" ∉ ([] : List String)) :=
  ⟨by decide, connector_rule_antisymmetric.1 "BBB" "AAA" (by decide),
   by decide,
   connector_rule_antisymmetric.2 "BBB" []
     [⟨"AAA", "p1", "192.168.0.2", 52742, 0⟩]
     ⟨"AAA", "p1", "192.168.0.2", 52742, 0⟩ (by decide)⟩

end RustSyncCV
